import Mathlib

/-!
Verification development for the Joule profiler (`joule/profiler.py`).

The Python source is shallowly embedded: Python (2.7) integers become `ℤ`,
Python floats become `ℚ` (all float computations appearing here are exact in
IEEE double for the ranges involved, except where a definition's doc comment
notes otherwise), fallible operations return `Option`/`Except`, and mutable
objects become explicit state records with pure transition functions.
-/

namespace Joule

/-- Timing parameters of one radio mode, the value type of the `MODES` table
in `profiler.py` (fields `difs`, `sifs`, `slot`, `min_cw`, `symbol_duration`,
`bits_per_symbol`). -/
structure ModeParams where
  difs : ℤ
  sifs : ℤ
  slot : ℤ
  min_cw : ℤ
  symbol_duration : ℤ
  bits_per_symbol : ℤ
  deriving Repr, DecidableEq

/-- The fixed `MODES` dictionary of `profiler.py`: it has exactly one entry,
keyed by the triple `('11a', '20', 1)`.  Lookup of a missing key (Python
`KeyError`) is modelled as `none`. -/
def MODES : String × String × ℕ → Option ModeParams
  | ("11a", "20", 1) =>
      some { difs := 34, sifs := 16, slot := 9, min_cw := 15,
             symbol_duration := 4, bits_per_symbol := 216 }
  | _ => none

/-- The mode record stored in the table under `('11a', '20', 1)`. -/
def mode11a : ModeParams :=
  { difs := 34, sifs := 16, slot := 9, min_cw := 15,
    symbol_duration := 4, bits_per_symbol := 216 }

/-- The OFDM symbol count computed by `compute_tx_usec` for a frame of
`length` bytes: the code first adds the fixed header adjustment
`8 + 20 + 28 + 8` bytes, then takes
`math.ceil(float(length * 8 + 6) / bits_per_symbol)`.  The float division is
exact enough that its ceiling agrees with the exact rational ceiling for
every value reachable here; the ceiling of `a / b` with `0 < b` is embedded
as the integer division `(a + b - 1) / b` (`/` is `Int.ediv`, which rounds
toward `-∞` for a positive divisor).  `tx_symbols_eq_ceil` below proves this
equal to `⌈a / b⌉` over `ℚ`. -/
def tx_symbols (m : ModeParams) (length : ℤ) : ℤ :=
  ((length + 8 + 20 + 28 + 8) * 8 + 6 + m.bits_per_symbol - 1) / m.bits_per_symbol

/-- The integer ceiling-division identity used by the `tx_symbols`
embedding: for a positive divisor, `(a + b - 1) / b` (with `/` rounding
toward `-∞`) is the ceiling of the exact rational quotient. -/
theorem ceil_int_div (a b : ℤ) (hb : 0 < b) :
    ⌈(a : ℚ) / (b : ℚ)⌉ = (a + b - 1) / b := by
  have hb' : (0 : ℚ) < (b : ℚ) := by exact_mod_cast hb
  set c : ℤ := (a + b - 1) / b with hc
  have h1 : c * b ≤ a + b - 1 := Int.ediv_mul_le _ (by omega)
  have h2 : a + b - 1 < (c + 1) * b := Int.lt_ediv_add_one_mul_self _ hb
  have g1 : (c - 1) * b < a := by nlinarith [h1]
  have g2 : a ≤ c * b := by nlinarith [h2]
  rw [Int.ceil_eq_iff]
  constructor
  · rw [lt_div_iff₀ hb']
    exact_mod_cast g1
  · rw [div_le_iff₀ hb']
    exact_mod_cast g2

/-- `tx_symbols` agrees with the source's
`math.ceil(float(length2 * 8 + 6) / bits_per_symbol)` read as an exact
rational ceiling, whenever `bits_per_symbol` is positive. -/
theorem tx_symbols_eq_ceil (m : ModeParams) (length : ℤ)
    (hb : 0 < m.bits_per_symbol) :
    tx_symbols m length =
      ⌈(((length + 8 + 20 + 28 + 8) * 8 + 6 : ℤ) : ℚ) / (m.bits_per_symbol : ℚ)⌉ := by
  rw [tx_symbols, ceil_int_div _ _ hb]

/-- Body of `compute_tx_usec` after the `MODES` lookup, with the mode record
passed explicitly (the looked-up key is the same in every recursive call, so
this is observationally the same recursion as the source).  `mtu` is the
source's default `1472`; `length / 2` is Python 2 floor division, `Int.fdiv`.
-/
def compute_tx_usec_core (m : ModeParams) (length : ℤ) : ℤ :=
  if 1472 < length then
    compute_tx_usec_core m (length.fdiv 2) + compute_tx_usec_core m (length.fdiv 2)
  else
    -- 20 usec synch header, each symbol requires symbol_duration usec
    let data := 20 + tx_symbols m length * m.symbol_duration
    -- 20 usec synch header, plus one ack symbol
    let ack := 20 + m.symbol_duration
    -- worst case backoff
    let backoff := m.slot * m.min_cw
    m.difs + data + m.sifs + ack + backoff
termination_by length.toNat
decreasing_by
  rw [Int.fdiv_eq_ediv _ (by norm_num)]
  omega

/-- `compute_tx_usec(hwmode, channel, streams, length)`: look up the mode in
`MODES` (`none` models the `KeyError` on an unknown mode, the fatal
configuration error) and estimate the airtime in microseconds. -/
def compute_tx_usec (hwmode channel : String) (streams : ℕ) (length : ℤ) :
    Option ℤ :=
  (MODES (hwmode, channel, streams)).map fun m => compute_tx_usec_core m length

/-- The traffic statistics attached to `stint['stats']` by `process_stint`:
fields `tp` (throughput, bits/s), `gp` (goodput, bits/s) and `losses` (loss
ratio). -/
structure StintTrafficStats where
  tp : ℚ
  gp : ℚ
  losses : ℚ
  deriving Repr, DecidableEq

/-- The counter-processing part of `process_stint` (its inputs are
`stint['packetsize_bytes']`, the source probe's `client_count` and
`client_interval`, and the destination probe's `server_count` and
`server_interval`): `tp_bps` starts at `0` and is set to
`float(client_count * packetsize_bytes * 8) / client_interval` when
`client_interval != 0`; `gp_bps` likewise from the server counters; `losses`
starts at `0` and is set to
`float(client_count - server_count) / client_count` when
`client_count != 0`. -/
def process_stint_traffic (packetsize_bytes client_count server_count : ℤ)
    (client_interval server_interval : ℚ) : StintTrafficStats :=
  let tp_bps : ℚ :=
    if client_interval ≠ 0 then
      ((client_count * packetsize_bytes * 8 : ℤ) : ℚ) / client_interval
    else 0
  let gp_bps : ℚ :=
    if server_interval ≠ 0 then
      ((server_count * packetsize_bytes * 8 : ℤ) : ℚ) / server_interval
    else 0
  let losses : ℚ :=
    if client_count ≠ 0 then
      ((client_count - server_count : ℤ) : ℚ) / (client_count : ℚ)
    else 0
  { tp := tp_bps, gp := gp_bps, losses := losses }

/-- One fetch cycle's outcome at the power meter backend: either a power
value, or the `ValueError` that `Modeller.run`'s `except` clause catches. -/
inductive FetchResult where
  | ok (power : ℚ)
  | valueError
  deriving Repr, DecidableEq

/-- The mutable state of a `Modeller` object that the claims concern: its
`readings` buffer (the `stop_event` and the meter backend are external
collaborators). -/
structure ModellerState where
  readings : List ℚ
  deriving Repr, DecidableEq

/-- `Modeller.reset_readings`: `self.readings = []`. -/
def Modeller.reset_readings (s : ModellerState) : ModellerState :=
  { s with readings := [] }

/-- `Modeller.get_readings`: returns `self.readings[:]`; the Python copy is
the identity under value semantics. -/
def Modeller.get_readings (s : ModellerState) : List ℚ :=
  s.readings

/-- One iteration of the `while` loop in `Modeller.run`: try
`self.readings.append(self.backend.fetch('power'))`, and on `ValueError`
append `0.0` instead. -/
def Modeller.run_step (s : ModellerState) (fetch : FetchResult) : ModellerState :=
  match fetch with
  | .ok power => { s with readings := s.readings ++ [power] }
  | .valueError => { s with readings := s.readings ++ [0] }

/-- `Modeller.run` iterated over a finite sequence of fetch outcomes (the
loop as observed between two checks of `stop_event`). -/
def Modeller.run_loop (s : ModellerState) (fetches : List FetchResult) :
    ModellerState :=
  fetches.foldl Modeller.run_step s

/-- One entry of the descriptor's `probes` mapping, the dictionary passed to
`Probe.__init__`: it carries `ip`, `receiver_control` and `receiver_port`
(and no sender-side control port field). -/
structure ProbeDescriptor where
  ip : String
  receiver_control : ℤ
  receiver_port : ℤ
  deriving Repr, DecidableEq

/-- The state of a `Probe` object: the fields assigned in `Probe.__init__`
(the Python attributes `_packet_rate`, `_packetsize_bytes`, `_limit` lose the
leading underscore here). -/
structure Probe where
  address : String
  sender_control : ℤ
  receiver_control : ℤ
  receiver_port : ℤ
  packet_rate : ℤ
  packetsize_bytes : ℤ
  limit : ℤ
  deriving Repr, DecidableEq

/-- `Probe.reset`: issues six best-effort `write_handler` control calls
(`src.active false`, `src.reset`, `counter_client.reset`, `tr_client.reset`,
`counter_server.reset`, `tr_server.reset`) — external side effects with no
bearing on local state — and then assigns `self._packet_rate = 10` and
`self._packetsize_bytes = 64`.  No other attribute is written. -/
def Probe.reset (p : Probe) : Probe :=
  { p with packet_rate := 10, packetsize_bytes := 64 }

/-- `Probe.__init__(probe)`: copies `ip` into `address`, sets
`sender_control = probe['receiver_control'] + 1`,
`receiver_control = probe['receiver_control']`, `receiver_port`, initialises
the session fields to `10`/`64`/`0`, and finally calls `self.reset()`. -/
def Probe.init (d : ProbeDescriptor) : Probe :=
  Probe.reset
    { address := d.ip
      sender_control := d.receiver_control + 1
      receiver_control := d.receiver_control
      receiver_port := d.receiver_port
      packet_rate := 10
      packetsize_bytes := 64
      limit := 0 }

/-- The fields of a stint entry consulted by `Probe.configure_stint`
(`src`, `dst` and the attached `stats` are not read by it). -/
structure Stint where
  bitrate_mbps : ℤ
  packetsize_bytes : ℤ
  duration_s : ℤ
  deriving Repr, DecidableEq

/-- `Probe.configure_stint(stint, tps)`:
`rate = float(bitrate_mbps * 1000000)`, `size = float(packetsize_bytes * 8)`,
`self._packet_rate = int(rate / size)` (float division then truncation toward
zero — `Int.tdiv`, exact for descriptor-sized values; Python raises
`ZeroDivisionError` when `packetsize_bytes = 0`, a case no claim touches,
where `Int.tdiv _ 0 = 0`), `self._packetsize_bytes = packetsize_bytes`,
`self._limit = self._packet_rate * duration`.  The four `write_handler`
calls pushing `src.length`, `src.rate`, `src.limit` and `sha.rate tps` to
the remote sender are external side effects. -/
def Probe.configure_stint (p : Probe) (stint : Stint) : Probe :=
  let rate := stint.bitrate_mbps * 1000000
  let size := stint.packetsize_bytes * 8
  let packet_rate := rate.tdiv size
  { p with packet_rate := packet_rate
           packetsize_bytes := stint.packetsize_bytes
           limit := packet_rate * stint.duration_s }

/-- A numpy scalar as far as these claims need it: either NaN or an exact
rational value. -/
inductive NpFloat where
  | nan
  | val (x : ℚ)
  deriving Repr, DecidableEq

/-- `np.median(xs)`: NaN on an empty array (numpy ≥ 1.9 returns NaN with a
`RuntimeWarning`, it does not raise); otherwise the middle element of the
sorted data, or the average of the two middle elements for even length. -/
def np_median (xs : List ℚ) : NpFloat :=
  if xs.isEmpty then .nan
  else
    let s := xs.mergeSort fun a b => decide (a ≤ b)
    let n := xs.length
    if n % 2 = 1 then .val (s.getD (n / 2) 0)
    else .val ((s.getD (n / 2 - 1) 0 + s.getD (n / 2) 0) / 2)

/-- `np.mean(xs)`: NaN on an empty array (with a `RuntimeWarning`),
otherwise the arithmetic mean. -/
def np_mean (xs : List ℚ) : NpFloat :=
  if xs.isEmpty then .nan
  else .val (xs.sum / xs.length)

/-- The square of `np.std(xs)` (population variance): NaN on an empty array,
otherwise the mean squared deviation.  `np.std` itself is its (irrational)
square root. -/
def np_var (xs : List ℚ) : NpFloat :=
  if xs.isEmpty then .nan
  else
    let m := xs.sum / xs.length
    .val ((xs.map fun x => (x - m) ^ 2).sum / xs.length)

/-- The square of the source's `ci = 1.96 * (np.std(readings) /
np.sqrt(len(readings)))`.  Squaring (injective on the nonnegative reals the
source produces) keeps the value rational:
`ci² = 1.96² · var / n`.  The NaN structure is preserved exactly: for an
empty array `np.std` is NaN and `np.sqrt(0) = 0.0`, and `1.96 * (NaN / 0.0)`
is NaN. -/
def np_ci_sq (xs : List ℚ) : NpFloat :=
  match np_var xs with
  | .nan => .nan
  | .val v => .val ((49 / 25) ^ 2 * v / xs.length)

/-- The dictionary returned by `process_readings`; per `np_ci_sq`, the `ci`
field carries the square of the source's `ci` value. -/
structure ReadingsStats where
  ci : NpFloat
  median : NpFloat
  mean : NpFloat
  deriving Repr, DecidableEq

/-- `process_readings(readings)`: `median = np.median(readings)`,
`mean = np.mean(readings)`,
`ci = 1.96 * (np.std(readings) / np.sqrt(len(readings)))` (represented by
its square), returned as `{'ci': ci, 'median': median, 'mean': mean}`.  The
function performs no emptiness check and raises nothing: on an empty list
every numpy call yields NaN. -/
def process_readings (readings : List ℚ) : ReadingsStats :=
  { ci := np_ci_sq readings
    median := np_median readings
    mean := np_mean readings }

/-- Every successful `MODES` lookup yields the single `('11a', '20', 1)`
entry. -/
lemma MODES_some_eq {k : String × String × ℕ} {m : ModeParams}
    (h : MODES k = some m) : m = mode11a := by
  unfold MODES at h
  split at h
  · cases h; rfl
  · exact Option.noConfusion h

/-- The `readings` buffer grows by exactly one element per loop iteration,
hence by `fetches.length` over a whole run. -/
lemma run_loop_length (s : ModellerState) (fetches : List FetchResult) :
    (Modeller.run_loop s fetches).readings.length =
      s.readings.length + fetches.length := by
  induction fetches generalizing s with
  | nil => rfl
  | cons f fs ih =>
      show (Modeller.run_loop (Modeller.run_step s f) fs).readings.length = _
      rw [ih]
      cases f <;> simp [Modeller.run_step] <;> omega

/-- Claim C1: for every packet size, pair of probe statuses and pair of
intervals, `process_stint` computes throughput
`clientCount × packetSizeBytes × 8 / clientInterval` with `0` when the
interval is exactly `0`; goodput by the same formula from `serverCount` and
`serverInterval` with `0` when that interval is exactly `0`; and loss ratio
`(clientCount − serverCount) / clientCount` with `0` when `clientCount` is
`0`; the loss ratio is not clamped to `[0, 1]`: when more packets are
counted at the server than at the client it is negative and surfaced as-is.
-/
theorem process_stint_stats_formulas (ps cc sc : ℤ) (ci si : ℚ) :
    (process_stint_traffic ps cc sc ci si).tp =
      (if ci = 0 then 0 else (cc : ℚ) * (ps : ℚ) * 8 / ci) ∧
    (process_stint_traffic ps cc sc ci si).gp =
      (if si = 0 then 0 else (sc : ℚ) * (ps : ℚ) * 8 / si) ∧
    (process_stint_traffic ps cc sc ci si).losses =
      (if cc = 0 then 0 else ((cc : ℚ) - (sc : ℚ)) / (cc : ℚ)) ∧
    (0 < cc → cc < sc → (process_stint_traffic ps cc sc ci si).losses < 0) := by
  refine ⟨?_, ?_, ?_, ?_⟩
  · show (if ci ≠ 0 then _ else _) = _
    split_ifs with h h' <;> try rfl
    · push_cast; ring
    · exact absurd h' h
  · show (if si ≠ 0 then _ else _) = _
    split_ifs with h h' <;> try rfl
    · push_cast; ring
    · exact absurd h' h
  · show (if cc ≠ 0 then _ else _) = _
    split_ifs with h h' <;> try rfl
    · push_cast; ring
    · exact absurd h' h
  · intro hpos hlt
    show (if cc ≠ 0 then ((cc - sc : ℤ) : ℚ) / (cc : ℚ) else 0) < 0
    rw [if_pos (by omega : cc ≠ 0)]
    apply div_neg_of_neg_of_pos
    · exact_mod_cast sub_neg.mpr (by exact_mod_cast hlt)
    · exact_mod_cast hpos

/-- Witness for C1 at packet size 64, client count 10, server count 20 and
both intervals 1: the hypotheses of the final conjunct are discharged and a
negative loss ratio is obtained. -/
theorem process_stint_stats_formulas_witness :
    (0 : ℤ) < 10 ∧ (10 : ℤ) < 20 ∧
    (process_stint_traffic 64 10 20 1 1).losses < 0 :=
  ⟨by decide, by decide,
   (process_stint_stats_formulas 64 10 20 1 1).2.2.2 (by decide) (by decide)⟩

/-- Claim C2: for the modes of the fixed table and any frame length of at
most the 1472-byte fragmentation threshold, the airtime estimate adds the
fixed 64-byte per-frame header overhead to the length, computes the symbol
count as the ceiling of `(effectiveLengthBits + 6) / bitsPerSymbol`, and
returns `DIFS + (20 + symbols·symbolDuration) + SIFS + (20 + symbolDuration)
+ slotTime·minContentionWindow` microseconds. -/
theorem compute_tx_usec_formula (hw ch : String) (st : ℕ) (m : ModeParams)
    (L : ℤ) (hm : MODES (hw, ch, st) = some m) (h0 : 0 ≤ L)
    (hL : L ≤ 1472) :
    compute_tx_usec hw ch st L =
      some (m.difs +
        (20 + ⌈(((L + 64) * 8 + 6 : ℤ) : ℚ) / (m.bits_per_symbol : ℚ)⌉ *
          m.symbol_duration) +
        m.sifs + (20 + m.symbol_duration) + m.slot * m.min_cw) := by
  have hmode : m = mode11a := MODES_some_eq hm
  have hb : 0 < m.bits_per_symbol := by rw [hmode]; decide
  rw [compute_tx_usec, hm, Option.map_some']
  rw [compute_tx_usec_core, if_neg (by omega : ¬ 1472 < L)]
  rw [tx_symbols_eq_ceil m L hb]
  have h64 : L + 8 + 20 + 28 + 8 = L + 64 := by ring
  rw [h64]

/-- Witness for C2: the mode `('11a', '20', 1)` and frame length 64. -/
theorem compute_tx_usec_formula_witness :
    MODES ("11a", "20", 1) = some mode11a ∧
    compute_tx_usec "11a" "20" 1 64 =
      some (mode11a.difs +
        (20 + ⌈((((64 : ℤ) + 64) * 8 + 6 : ℤ) : ℚ) /
            (mode11a.bits_per_symbol : ℚ)⌉ * mode11a.symbol_duration) +
        mode11a.sifs + (20 + mode11a.symbol_duration) +
        mode11a.slot * mode11a.min_cw) :=
  ⟨rfl, compute_tx_usec_formula "11a" "20" 1 mode11a 64 rfl (by decide)
    (by decide)⟩

/-- Claim C3: for the modes of the fixed table and any frame length strictly
greater than the 1472-byte threshold, the estimate splits the frame into two
floor-divided halves and sums their airtimes, so
`compute_tx_usec L = 2 · compute_tx_usec (L / 2)` exactly. -/
theorem compute_tx_usec_fragmentation (hw ch : String) (st : ℕ)
    (m : ModeParams) (L : ℤ) (hm : MODES (hw, ch, st) = some m)
    (hL : 1472 < L) :
    compute_tx_usec hw ch st L =
      (compute_tx_usec hw ch st (L.fdiv 2)).map fun t => 2 * t := by
  rw [compute_tx_usec, compute_tx_usec, hm, Option.map_some', Option.map_some']
  have : compute_tx_usec_core m L =
      2 * compute_tx_usec_core m (L.fdiv 2) := by
    conv_lhs => rw [compute_tx_usec_core]
    rw [if_pos hL]
    exact (two_mul _).symm
  rw [this]
  rfl

/-- Witness for C3: the mode `('11a', '20', 1)` and frame length 3000. -/
theorem compute_tx_usec_fragmentation_witness :
    MODES ("11a", "20", 1) = some mode11a ∧
    (1472 : ℤ) < 3000 ∧
    compute_tx_usec "11a" "20" 1 3000 =
      (compute_tx_usec "11a" "20" 1 ((3000 : ℤ).fdiv 2)).map fun t => 2 * t :=
  ⟨rfl, by decide,
   compute_tx_usec_fragmentation "11a" "20" 1 mode11a 3000 rfl (by decide)⟩

/-- Counterexample to claim C4: the frame lengths 1 and 2 are both at most
1472 and `1 < 2`, yet their airtime estimates are equal (both 241 µs — one
extra byte does not always add an OFDM symbol), so `compute_tx_usec` is not
strictly increasing below the fragmentation threshold. -/
theorem compute_tx_usec_not_strictly_increasing :
    (1 : ℤ) < 2 ∧ (2 : ℤ) ≤ 1472 ∧
    MODES ("11a", "20", 1) = some mode11a ∧
    compute_tx_usec "11a" "20" 1 1 = some 241 ∧
    compute_tx_usec "11a" "20" 1 2 = some 241 := by
  have hm : MODES ("11a", "20", 1) = some mode11a := rfl
  refine ⟨by decide, by decide, hm, ?_, ?_⟩ <;>
    · rw [compute_tx_usec, hm, Option.map_some', compute_tx_usec_core]
      decide

/-- Claim C4 as amended: for the modes of the fixed table,
`compute_tx_usec` is monotone (non-strictly increasing) in the frame length
on `[0, 1472]`; strict growth fails only between lengths falling in the same
OFDM-symbol bucket. -/
theorem compute_tx_usec_mono (hw ch : String) (st : ℕ) (m : ModeParams)
    (L1 L2 : ℤ) (hm : MODES (hw, ch, st) = some m) (h0 : 0 ≤ L1)
    (h12 : L1 ≤ L2) (hL : L2 ≤ 1472) :
    compute_tx_usec_core m L1 ≤ compute_tx_usec_core m L2 := by
  have hmode : m = mode11a := MODES_some_eq hm
  subst hmode
  have hs : tx_symbols mode11a L1 ≤ tx_symbols mode11a L2 := by
    unfold tx_symbols
    simp only [mode11a]
    exact Int.ediv_le_ediv (by norm_num) (by omega)
  rw [compute_tx_usec_core, if_neg (by omega : ¬ 1472 < L1)]
  rw [compute_tx_usec_core, if_neg (by omega : ¬ 1472 < L2)]
  simp only [show ModeParams.difs mode11a = 34 from rfl,
    show ModeParams.sifs mode11a = 16 from rfl,
    show ModeParams.slot mode11a = 9 from rfl,
    show ModeParams.min_cw mode11a = 15 from rfl,
    show ModeParams.symbol_duration mode11a = 4 from rfl]
  omega

/-- Witness for the amended C4 at frame lengths 100 ≤ 200. -/
theorem compute_tx_usec_mono_witness :
    compute_tx_usec_core mode11a 100 ≤ compute_tx_usec_core mode11a 200 :=
  compute_tx_usec_mono "11a" "20" 1 mode11a 100 200 rfl (by decide)
    (by decide) (by decide)

/-- Counterexample to claim C5: aggregating the power statistics of an empty
snapshot does not signal any error — `process_readings []` returns a result
whose median, mean and confidence half-width are all NaN (numpy ≥ 1.9
returns NaN, with a `RuntimeWarning`, for the median, mean and standard
deviation of an empty array). -/
theorem process_readings_empty_returns_nan :
    (process_readings []).median = NpFloat.nan ∧
    (process_readings []).mean = NpFloat.nan ∧
    (process_readings []).ci = NpFloat.nan := by decide

/-- Claim C5 as amended: `process_readings` never signals a domain error;
on an empty snapshot it silently returns a result with NaN median, mean and
confidence half-width, and on a nonempty snapshot all three fields are
(non-NaN) values. -/
theorem process_readings_empty_behaviour (readings : List ℚ) :
    (readings = [] →
      process_readings readings = ⟨.nan, .nan, .nan⟩) ∧
    (readings ≠ [] →
      ∃ c med mea, process_readings readings = ⟨.val c, .val med, .val mea⟩) := by
  constructor
  · rintro rfl
    decide
  · intro h
    have hne : ¬ (readings.isEmpty = true) := by
      simpa [List.isEmpty_iff] using h
    obtain ⟨med, hmed⟩ : ∃ x, np_median readings = .val x := by
      rw [np_median, if_neg hne]
      dsimp only
      split <;> exact ⟨_, rfl⟩
    obtain ⟨mea, hmea⟩ : ∃ x, np_mean readings = .val x := by
      rw [np_mean, if_neg hne]
      exact ⟨_, rfl⟩
    obtain ⟨v, hv⟩ : ∃ x, np_var readings = .val x := by
      rw [np_var, if_neg hne]
      exact ⟨_, rfl⟩
    refine ⟨(49 / 25) ^ 2 * v / readings.length, med, mea, ?_⟩
    rw [process_readings, hmed, hmea, np_ci_sq, hv]

/-- Witness for the amended C5: the empty snapshot yields all-NaN and the
singleton snapshot `[1]` yields three proper values. -/
theorem process_readings_empty_behaviour_witness :
    process_readings ([] : List ℚ) = ⟨.nan, .nan, .nan⟩ ∧
    ∃ c med mea,
      process_readings [(1 : ℚ)] = ⟨.val c, .val med, .val mea⟩ :=
  ⟨(process_readings_empty_behaviour []).1 rfl,
   (process_readings_empty_behaviour [1]).2 (by decide)⟩

/-- Counterexample to claim C6: configure a probe for a stint of 10 Mbit/s,
64-byte packets, 30 s (packet limit `int(10000000/512)·30 = 585930`)
and then call `reset()`: the packet-count limit is still 585930, not the
constructed default 0 — `Probe.reset` restores only the rate and the packet
size, so the limit set by a previous `configure_stint` leaks. -/
theorem probe_reset_leaks_limit :
    (Probe.reset (Probe.configure_stint
        (Probe.init ⟨"192.168.0.1", 7000, 9000⟩) ⟨10, 64, 30⟩)).limit
      = 585930 ∧
    (Probe.init ⟨"192.168.0.1", 7000, 9000⟩).limit = 0 := by decide

/-- Claim C6 as amended: after every call to `Probe.reset()` the configured
packet rate and packet size are restored to their defaults (10 pkt/s and 64
bytes), but the packet-count limit is left unchanged, so the limit computed
by a previous `configure_stint` (`⌊bitrate/8·size⌋ · duration`) persists
into the reset state. -/
theorem probe_reset_restores_rate_size (p : Probe) (stint : Stint) :
    (Probe.reset p).packet_rate = 10 ∧
    (Probe.reset p).packetsize_bytes = 64 ∧
    (Probe.reset p).limit = p.limit ∧
    (Probe.reset (Probe.configure_stint p stint)).limit =
      (stint.bitrate_mbps * 1000000).tdiv (stint.packetsize_bytes * 8) *
        stint.duration_s :=
  ⟨rfl, rfl, rfl, rfl⟩

/-- Claim C7: every iteration of the power-sampling loop appends exactly one
reading — the fetched value when the meter fetch succeeds and `0.0` when it
raises `ValueError` (a failed fetch never terminates the loop), so after `N`
fetch cycles the buffer has grown by `N`; and immediately after
`reset_readings`, `get_readings` returns the empty sequence. -/
theorem modeller_sampling_loop (s : ModellerState) (v : ℚ)
    (fetches : List FetchResult) :
    Modeller.run_step s (.ok v) = { s with readings := s.readings ++ [v] } ∧
    Modeller.run_step s .valueError =
      { s with readings := s.readings ++ [0] } ∧
    (Modeller.run_loop s fetches).readings.length =
      s.readings.length + fetches.length ∧
    Modeller.get_readings (Modeller.reset_readings s) = [] :=
  ⟨rfl, rfl, run_loop_length s fetches, rfl⟩

/-- Counterexample to claim C8: at the (degenerate, negative) frame length
−65 the computed symbol count is exactly zero, yet the estimator signals no
domain error — it returns the airtime value 229 µs.  The source contains no
zero-symbol check at all. -/
theorem tx_symbols_zero_no_error :
    tx_symbols mode11a (-65) = 0 ∧
    compute_tx_usec "11a" "20" 1 (-65) = some 229 := by
  have hm : MODES ("11a", "20", 1) = some mode11a := rfl
  refine ⟨by decide, ?_⟩
  rw [compute_tx_usec, hm, Option.map_some', compute_tx_usec_core]
  decide

/-- Claim C8 as amended: the estimator has no error path for a zero symbol
count; instead, for the modes of the fixed table and every nonnegative frame
length the computed symbol count is at least 1, so the zero-symbol case can
never arise on valid input (and on a nonsensical negative length that does
yield zero symbols, an airtime value is still returned). -/
theorem tx_symbols_pos_of_nonneg (hw ch : String) (st : ℕ) (m : ModeParams)
    (L : ℤ) (hm : MODES (hw, ch, st) = some m) (h0 : 0 ≤ L) :
    1 ≤ tx_symbols m L := by
  have hmode : m = mode11a := MODES_some_eq hm
  subst hmode
  unfold tx_symbols
  simp only [mode11a]
  omega

/-- Witness for the amended C8 at frame length 0 in mode `('11a','20',1)`. -/
theorem tx_symbols_pos_of_nonneg_witness :
    1 ≤ tx_symbols mode11a 0 :=
  tx_symbols_pos_of_nonneg "11a" "20" 1 mode11a 0 rfl (by decide)

/-- Claim C10: for every probe constructed from a descriptor entry, the
sender-role control channel id is the descriptor's `receiver_control` plus
one and the receiver-role control channel id is `receiver_control` itself
(the descriptor carries no sender channel field — see `ProbeDescriptor` —
so the sender channel is always derived). -/
theorem probe_init_control_channels (d : ProbeDescriptor) :
    (Probe.init d).sender_control = d.receiver_control + 1 ∧
    (Probe.init d).receiver_control = d.receiver_control :=
  ⟨rfl, rfl⟩

end Joule
